import Mathlib

/-!
Verification of the point rule engine of the academic promotion score
calculator (src/app.py).  The engine is the pure function compute_points
together with the author-share calculator article_share.  Python floats are
embedded as rationals, Python dict.get(key, default) access as Option fields
read through Option.getD, and the payload dict as the Payload structure.
-/

namespace Docent

/-- One claimed article or thesis-derived publication, as built by the UI:
a category code string, the number of authors, the claimant role, and the
optional has_primary flag (dict.get defaults it to True). -/
structure Article where
  type : String
  num_authors : Int
  role : String
  has_primary : Option Bool

/-- Citation counts sub-record (all fields read with dict.get(k, 0)). -/
structure Citations where
  wos_scopus : Option Int
  bkci : Option Int
  trdizin : Option Int
  other : Option Int

/-- Supervision counts sub-record. -/
structure Supervisions where
  phd : Option Int
  ms : Option Int
  phd_as_second : Option Int
  ms_as_second : Option Int

/-- Project counts sub-record. -/
structure Projects where
  eu_tubitak_coord : Option Int
  eu_tubitak_researcher : Option Int
  eu_tubitak_advisor : Option Int
  intl_project_any : Option Int
  public_private_rnd : Option Int
  bap_coord : Option Int

/-- Meeting counts sub-record. -/
structure Meetings where
  cpci : Option Int
  other : Option Int

/-- Education sub-record: two counters and one boolean flag. -/
structure Education where
  semester_mode : Option Int
  year_mode : Option Int
  has_2yr_faculty : Option Bool

/-- Patent counts sub-record: four tier counts and four inventor counts
(the inventor fields are read with dict.get(k, 1)). -/
structure Patents where
  intl : Option Int
  national : Option Int
  utility : Option Int
  app : Option Int
  intl_inventors : Option Int
  national_inventors : Option Int
  utility_inventors : Option Int
  app_inventors : Option Int

/-- Award counts sub-record. -/
structure Awards where
  yok_phd : Option Int
  yok_high : Option Int
  tubitak_science : Option Int
  tubitak_encour : Option Int
  tuba_gebip : Option Int
  tuba_tesep : Option Int

/-- Editorship counts sub-record. -/
structure Editor where
  wos_scopus : Option Int
  bkci_scopus_book : Option Int
  trdizin : Option Int

/-- The two boolean flags of the "other" sub-record. -/
structure OtherFlags where
  hindex5 : Option Bool
  top300_6m : Option Bool

/-- The whole input payload handed to compute_points.  after_degree is
optional because the code reads data.get("after_degree", True). -/
structure Payload where
  after_degree : Option Bool
  articles : List Article
  thesis_articles : List Article
  citations : Citations
  supervisions : Supervisions
  projects : Projects
  meetings : Meetings
  education : Education
  patents : Patents
  awards : Awards
  editor : Editor
  other : OtherFlags

/-- cap(value, maxv) = min(value, maxv). -/
def cap (value maxv : ℚ) : ℚ := min value maxv

/-- article_share from src/app.py: distributes base points among co-authors
given the author count, the claimant role string, and whether a primary
author was designated. -/
def article_share (points : ℚ) (num_authors : Int) (role : String)
    (has_primary_author : Bool) : ℚ :=
  if num_authors ≤ 0 then 0
  else if num_authors = 1 then points
  else if ¬ has_primary_author then points / (num_authors : ℚ)
  else if num_authors = 2 then
    if role = "primary" then points * 0.8 else points * 0.5
  else
    if role = "primary" then points * 0.5
    else (points * 0.5) / ((num_authors : ℚ) - 1)

/-- base_map from compute_points: base points per non-thesis article type. -/
def base_map : List (String × ℚ) :=
  [("Q1", 30), ("Q2", 20), ("Q3", 15), ("Q4", 10),
   ("AHCI", 20), ("ESCI", 10), ("OTHER_INT", 5),
   ("TRDIZIN", 10), ("OTHER_NAT", 4), ("LETTER", 3), ("CASE", 5)]

/-- thesis_map from compute_points: base points per thesis-publication type. -/
def thesis_map : List (String × ℚ) :=
  [("SCIE_SSCI_AHCI", 20), ("ESCI_SCOPUS", 10), ("OTHER_INT", 5), ("TRDIZIN", 8),
   ("BKCI_BOOK", 20), ("BKCI_CHAPTER", 10), ("OTHER_BOOK", 5), ("OTHER_BOOK_CH", 3),
   ("CPCI", 3), ("OTHER_CONF", 2)]

/-- The share contributed by one item: map.get(type, 0) fed through
article_share with the item fields (has_primary defaulting to True). -/
def itemShare (m : List (String × ℚ)) (a : Article) : ℚ :=
  article_share ((List.lookup a.type m).getD 0) a.num_authors a.role
    (a.has_primary.getD true)

/-- total_articles: sum of shares over the non-thesis article list. -/
def totalArticles (l : List Article) : ℚ := (l.map (itemShare base_map)).sum

/-- The condition guarding count_1a_primary_after / total_1a_points_after:
type in [Q1,Q2,Q3,Q4], role == "primary", and the batch-level after_degree
flag. -/
def qual1a (after : Bool) (a : Article) : Bool :=
  (["Q1", "Q2", "Q3", "Q4"].contains a.type) && (a.role == "primary") && after

/-- count_1a_primary_after accumulated by the article loop. -/
def count1aPrimaryAfter (after : Bool) (l : List Article) : Nat :=
  (l.filter (qual1a after)).length

/-- total_1a_points_after accumulated by the article loop. -/
def total1aPointsAfter (after : Bool) (l : List Article) : ℚ :=
  ((l.filter (qual1a after)).map (itemShare base_map)).sum

/-- type in ["TRDIZIN", "OTHER_NAT"]: the national-article guard. -/
def isNational (a : Article) : Bool :=
  (["TRDIZIN", "OTHER_NAT"].contains a.type)

/-- nat_pub_count from the national-article loop. -/
def natPubCount (l : List Article) : Nat := (l.filter isNational).length

/-- nat_trdizin_count: national articles whose type is TRDIZIN. -/
def natTrdizinCount (l : List Article) : Nat :=
  (l.filter (fun a => isNational a && (a.type == "TRDIZIN"))).length

/-- nat_primary_count: national articles authored in the primary role. -/
def natPrimaryCount (l : List Article) : Nat :=
  (l.filter (fun a => isNational a && (a.role == "primary"))).length

/-- thesis_total_share: sum of shares over the thesis-publication list. -/
def thesisTotalShare (l : List Article) : ℚ := (l.map (itemShare thesis_map)).sum

/-- thesis_total_capped = cap(thesis_total_share, 20). -/
def thesisTotalCapped (l : List Article) : ℚ := cap (thesisTotalShare l) 20

/-- The eight qualifying high-value thesis types setting thesis_any_ah_to_h. -/
def thesisQualTypes : List String :=
  ["SCIE_SSCI_AHCI", "ESCI_SCOPUS", "OTHER_INT", "TRDIZIN",
   "BKCI_BOOK", "BKCI_CHAPTER", "OTHER_BOOK", "OTHER_BOOK_CH"]

/-- thesis_any_ah_to_h: some thesis item has a qualifying type. -/
def thesisAnyAH (l : List Article) : Bool :=
  l.any (fun t => thesisQualTypes.contains t.type)

/-- dict.get(k, 0) of an integer count field, as a rational. -/
def gz (o : Option Int) : ℚ := ((o.getD 0 : Int) : ℚ)

/-- Citations (Madde 5), capped at 10. -/
def cPointsCapped (c : Citations) : ℚ :=
  cap (gz c.wos_scopus * 3 + gz c.bkci * 2 + gz c.trdizin * 2 + gz c.other * 1) 10

/-- Supervisions (Madde 6), capped at 10. -/
def sPointsCapped (s : Supervisions) : ℚ :=
  cap (gz s.phd * 5 + gz s.ms * 3 + gz s.phd_as_second * 2.5 +
       gz s.ms_as_second * 1.5) 10

/-- Projects (Madde 7), capped at 20. -/
def pPointsCapped (p : Projects) : ℚ :=
  cap (gz p.eu_tubitak_coord * 15 + gz p.eu_tubitak_researcher * 10 +
       gz p.eu_tubitak_advisor * 5 + gz p.intl_project_any * 10 +
       gz p.public_private_rnd * 5 + gz p.bap_coord * 3) 20

/-- Meetings (Madde 8), capped at 10. -/
def mPointsCapped (m : Meetings) : ℚ :=
  cap (gz m.cpci * 5 + gz m.other * 3) 10

/-- Education (Madde 9) raw bonus sum before the cap. -/
def eduPoints (e : Education) : ℚ :=
  (if 4 ≤ e.semester_mode.getD 0 then 2 else 0) +
  (if 2 ≤ e.year_mode.getD 0 then 2 else 0) +
  (if e.has_2yr_faculty.getD false then 2 else 0)

/-- Education capped at 6. -/
def eduPointsCapped (e : Education) : ℚ := cap (eduPoints e) 6

/-- safe_div from compute_points: (x / n) if n and n > 0 else 0.0. -/
def safe_div (x n : ℚ) : ℚ := if 0 < n then x / n else 0

/-- max(1, pat.get(inventor_key, 1)): the denominator of one patent tier. -/
def inventorDen (o : Option Int) : Int := max 1 (o.getD 1)

/-- Patents (Madde 10): weights 20/10/5/2 over the four tiers, each divided
through safe_div by the floored inventor count. -/
def patPoints (p : Patents) : ℚ :=
  safe_div (20 * gz p.intl) ((inventorDen p.intl_inventors : Int) : ℚ) +
  safe_div (10 * gz p.national) ((inventorDen p.national_inventors : Int) : ℚ) +
  safe_div (5 * gz p.utility) ((inventorDen p.utility_inventors : Int) : ℚ) +
  safe_div (2 * gz p.app) ((inventorDen p.app_inventors : Int) : ℚ)

/-- Awards (Madde 11): sum of the six counts times 25, capped at 25. -/
def awPointsCapped (a : Awards) : ℚ :=
  cap ((gz a.yok_phd + gz a.yok_high + gz a.tubitak_science +
        gz a.tubitak_encour + gz a.tuba_gebip + gz a.tuba_tesep) * 25) 25

/-- Editorship (Madde 12), capped at 4. -/
def edPointsCapped (e : Editor) : ℚ :=
  cap (gz e.wos_scopus * 2 + gz e.bkci_scopus_book * 1 + gz e.trdizin * 1) 4

/-- Other (Madde 13), capped at 10. -/
def otherPointsCapped (o : OtherFlags) : ℚ :=
  cap ((if o.hindex5.getD false then (5 : ℚ) else 0) +
       (if o.top300_6m.getD false then (5 : ℚ) else 0)) 10

/-- total_excl_thesis: the fold of all non-thesis category values. -/
def totalExclThesis (d : Payload) : ℚ :=
  totalArticles d.articles + cPointsCapped d.citations +
  sPointsCapped d.supervisions + pPointsCapped d.projects +
  mPointsCapped d.meetings + eduPointsCapped d.education +
  patPoints d.patents + awPointsCapped d.awards +
  edPointsCapped d.editor + otherPointsCapped d.other

/-- total_all = total_excl_thesis + thesis_total_capped. -/
def totalAll (d : Payload) : ℚ :=
  totalExclThesis d + thesisTotalCapped d.thesis_articles

/-- round(x, 4): rounding a figure to 4 decimal places. -/
def round4 (q : ℚ) : ℚ := ((round (q * 10000) : Int) : ℚ) / 10000

/-- The Totals dataclass returned by compute_points.  The checks and
breakdown dicts are embedded as insertion-ordered association lists. -/
structure Totals where
  total : ℚ
  total_excluding_thesis : ℚ
  checks : List (String × Bool)
  breakdown : List (String × ℚ)

/-- The checks dict built at the end of compute_points, read off the
unrounded category values. -/
def checksOf (d : Payload) : List (String × Bool) :=
  [("overall_min_100", decide (100 ≤ totalAll d)),
   ("min_90_after_excl_thesis", decide (90 ≤ totalExclThesis d)),
   ("1a_primary_at_least3_and_40pts",
     decide (3 ≤ count1aPrimaryAfter (d.after_degree.getD true) d.articles ∧
             40 ≤ total1aPointsAfter (d.after_degree.getD true) d.articles)),
   ("2_national_at_least3_with2_trdizin_and_2_primary",
     decide (3 ≤ natPubCount d.articles ∧ 2 ≤ natTrdizinCount d.articles ∧
             2 ≤ natPrimaryCount d.articles)),
   ("3_thesis_at_least_one_from_a_h", thesisAnyAH d.thesis_articles),
   ("5_citation_min5_after", decide (5 ≤ cPointsCapped d.citations)),
   ("8_meeting_min5_after", decide (5 ≤ mPointsCapped d.meetings)),
   ("9_education_min2", decide (2 ≤ eduPointsCapped d.education))]

/-- The breakdown dict built at the end of compute_points: every figure is
rounded to 4 decimal places on its way into the dict. -/
def breakdownOf (d : Payload) : List (String × ℚ) :=
  [("1_2_articles_total_share", round4 (totalArticles d.articles)),
   ("3_thesis_share_capped20", round4 (thesisTotalCapped d.thesis_articles)),
   ("5_citations_capped10", round4 (cPointsCapped d.citations)),
   ("6_supervisions_capped10", round4 (sPointsCapped d.supervisions)),
   ("7_projects_capped20", round4 (pPointsCapped d.projects)),
   ("8_meetings_capped10", round4 (mPointsCapped d.meetings)),
   ("9_education_capped6", round4 (eduPointsCapped d.education)),
   ("10_patents", round4 (patPoints d.patents)),
   ("11_awards_capped25", round4 (awPointsCapped d.awards)),
   ("12_editor_capped4", round4 (edPointsCapped d.editor)),
   ("13_other_capped10", round4 (otherPointsCapped d.other)),
   ("TOTAL_EXCLUDING_THESIS", round4 (totalExclThesis d)),
   ("TOTAL_ALL", round4 (totalAll d))]

/-- compute_points from src/app.py, assembled from the category aggregators
above exactly as the straight-line Python body does. -/
def compute_points (d : Payload) : Totals :=
  { total := totalAll d
    total_excluding_thesis := totalExclThesis d
    checks := checksOf d
    breakdown := breakdownOf d }

/-- Reference author-share definition transcribed from the words of the
specification (section 4.1), to be compared with article_share: zero on a
non-positive author count; the full base points for a sole author; an equal
split when no primary author is designated among 2 or more authors;
0.8x / 0.5x for primary / other at exactly two authors with a designated
primary; 0.5x for the primary and the remaining half split evenly among the
other authorCount - 1 co-authors at three or more authors. -/
def share_spec (basePoints : ℚ) (authorCount : Int) (role : String)
    (primaryDesignated : Bool) : ℚ :=
  if authorCount ≤ 0 then 0
  else if authorCount = 1 then basePoints
  else if ¬ primaryDesignated then basePoints / (authorCount : ℚ)
  else if authorCount = 2 then
    if role = "primary" then 0.8 * basePoints else 0.5 * basePoints
  else
    if role = "primary" then 0.5 * basePoints
    else (0.5 * basePoints) / ((authorCount : ℚ) - 1)

/-- Zero-filling of one optional numeric count: a missing field becomes an
explicit 0. -/
def fillO (o : Option Int) : Option Int := some (o.getD 0)

/-- Zero-fill every numeric count field of the payload, leaving the lists,
the boolean flags and the after_degree flag untouched. -/
def fillCounts (d : Payload) : Payload :=
  { d with
    citations := ⟨fillO d.citations.wos_scopus, fillO d.citations.bkci,
                  fillO d.citations.trdizin, fillO d.citations.other⟩
    supervisions := ⟨fillO d.supervisions.phd, fillO d.supervisions.ms,
                     fillO d.supervisions.phd_as_second,
                     fillO d.supervisions.ms_as_second⟩
    projects := ⟨fillO d.projects.eu_tubitak_coord,
                 fillO d.projects.eu_tubitak_researcher,
                 fillO d.projects.eu_tubitak_advisor,
                 fillO d.projects.intl_project_any,
                 fillO d.projects.public_private_rnd,
                 fillO d.projects.bap_coord⟩
    meetings := ⟨fillO d.meetings.cpci, fillO d.meetings.other⟩
    education := ⟨fillO d.education.semester_mode, fillO d.education.year_mode,
                  d.education.has_2yr_faculty⟩
    patents := ⟨fillO d.patents.intl, fillO d.patents.national,
                fillO d.patents.utility, fillO d.patents.app,
                fillO d.patents.intl_inventors, fillO d.patents.national_inventors,
                fillO d.patents.utility_inventors, fillO d.patents.app_inventors⟩
    awards := ⟨fillO d.awards.yok_phd, fillO d.awards.yok_high,
               fillO d.awards.tubitak_science, fillO d.awards.tubitak_encour,
               fillO d.awards.tuba_gebip, fillO d.awards.tuba_tesep⟩
    editor := ⟨fillO d.editor.wos_scopus, fillO d.editor.bkci_scopus_book,
               fillO d.editor.trdizin⟩ }

/-- The non-negativity contract the caller's validated UI guarantees: every
numeric count field, read with its dict.get default, is non-negative. -/
def NonNegCounts (d : Payload) : Prop :=
  0 ≤ d.citations.wos_scopus.getD 0 ∧ 0 ≤ d.citations.bkci.getD 0 ∧
  0 ≤ d.citations.trdizin.getD 0 ∧ 0 ≤ d.citations.other.getD 0 ∧
  0 ≤ d.supervisions.phd.getD 0 ∧ 0 ≤ d.supervisions.ms.getD 0 ∧
  0 ≤ d.supervisions.phd_as_second.getD 0 ∧ 0 ≤ d.supervisions.ms_as_second.getD 0 ∧
  0 ≤ d.projects.eu_tubitak_coord.getD 0 ∧ 0 ≤ d.projects.eu_tubitak_researcher.getD 0 ∧
  0 ≤ d.projects.eu_tubitak_advisor.getD 0 ∧ 0 ≤ d.projects.intl_project_any.getD 0 ∧
  0 ≤ d.projects.public_private_rnd.getD 0 ∧ 0 ≤ d.projects.bap_coord.getD 0 ∧
  0 ≤ d.meetings.cpci.getD 0 ∧ 0 ≤ d.meetings.other.getD 0 ∧
  0 ≤ d.education.semester_mode.getD 0 ∧ 0 ≤ d.education.year_mode.getD 0 ∧
  0 ≤ d.patents.intl.getD 0 ∧ 0 ≤ d.patents.national.getD 0 ∧
  0 ≤ d.patents.utility.getD 0 ∧ 0 ≤ d.patents.app.getD 0 ∧
  0 ≤ d.awards.yok_phd.getD 0 ∧ 0 ≤ d.awards.yok_high.getD 0 ∧
  0 ≤ d.awards.tubitak_science.getD 0 ∧ 0 ≤ d.awards.tubitak_encour.getD 0 ∧
  0 ≤ d.awards.tuba_gebip.getD 0 ∧ 0 ≤ d.awards.tuba_tesep.getD 0 ∧
  0 ≤ d.editor.wos_scopus.getD 0 ∧ 0 ≤ d.editor.bkci_scopus_book.getD 0 ∧
  0 ≤ d.editor.trdizin.getD 0

instance (d : Payload) : Decidable (NonNegCounts d) := by
  unfold NonNegCounts; infer_instance

/-- The all-defaults payload: empty article lists, every sub-record field
missing. -/
def P0 : Payload :=
  { after_degree := none, articles := [], thesis_articles := []
    citations := ⟨none, none, none, none⟩
    supervisions := ⟨none, none, none, none⟩
    projects := ⟨none, none, none, none, none, none⟩
    meetings := ⟨none, none⟩
    education := ⟨none, none, none⟩
    patents := ⟨none, none, none, none, none, none, none, none⟩
    awards := ⟨none, none, none, none, none, none⟩
    editor := ⟨none, none, none⟩
    other := ⟨none, none⟩ }

/-- The bounds of the CategoryTallies invariant: every category value is
non-negative, every capped value stays below its ceiling, and education
lies in the interval from 0 to 6. -/
def TalliesBounded (d : Payload) : Prop :=
  0 ≤ totalArticles d.articles ∧
  0 ≤ thesisTotalCapped d.thesis_articles ∧
  thesisTotalCapped d.thesis_articles ≤ 20 ∧
  0 ≤ cPointsCapped d.citations ∧ cPointsCapped d.citations ≤ 10 ∧
  0 ≤ sPointsCapped d.supervisions ∧ sPointsCapped d.supervisions ≤ 10 ∧
  0 ≤ pPointsCapped d.projects ∧ pPointsCapped d.projects ≤ 20 ∧
  0 ≤ mPointsCapped d.meetings ∧ mPointsCapped d.meetings ≤ 10 ∧
  0 ≤ eduPointsCapped d.education ∧ eduPointsCapped d.education ≤ 6 ∧
  0 ≤ patPoints d.patents ∧
  0 ≤ awPointsCapped d.awards ∧ awPointsCapped d.awards ≤ 25 ∧
  0 ≤ edPointsCapped d.editor ∧ edPointsCapped d.editor ≤ 4 ∧
  0 ≤ otherPointsCapped d.other ∧ otherPointsCapped d.other ≤ 10

/-- Claim C1: the author-share function of the code coincides with the
reference definition stated in the specification for every base point value,
author count, role and primary-designation flag. -/
theorem claim_C1 (basePoints : ℚ) (authorCount : Int) (role : String)
    (primaryDesignated : Bool) :
    article_share basePoints authorCount role primaryDesignated =
      share_spec basePoints authorCount role primaryDesignated := by
  unfold article_share share_spec
  split_ifs <;> ring

/-- Claim C2: the grand total of every result equals the total excluding
thesis-derived work plus the thesis-derived category total capped at 20. -/
theorem claim_C2 (d : Payload) :
    (compute_points d).total =
      (compute_points d).total_excluding_thesis +
        min (thesisTotalShare d.thesis_articles) 20 := rfl

/-- Counterexample to claim C3: at the all-defaults payload the breakdown
mapping has 13 keys in all, not the 15 that 13 fixed category entries plus
the two totals would give. -/
theorem claim_C3_counterexample :
    ¬ (((compute_points P0).breakdown.map Prod.fst).length = 13 + 2) := by
  decide

/-- Claim C3 (amended): every result exposes an eligibility-check mapping
with exactly 8 fixed named boolean entries and a breakdown mapping with
exactly 11 fixed named numeric category entries plus the two totals, with
fixed keys independent of the input. -/
theorem claim_C3 (d : Payload) :
    ((compute_points d).checks.map Prod.fst) =
      ["overall_min_100", "min_90_after_excl_thesis",
       "1a_primary_at_least3_and_40pts",
       "2_national_at_least3_with2_trdizin_and_2_primary",
       "3_thesis_at_least_one_from_a_h", "5_citation_min5_after",
       "8_meeting_min5_after", "9_education_min2"] ∧
    ((compute_points d).breakdown.map Prod.fst) =
      ["1_2_articles_total_share", "3_thesis_share_capped20",
       "5_citations_capped10", "6_supervisions_capped10",
       "7_projects_capped20", "8_meetings_capped10", "9_education_capped6",
       "10_patents", "11_awards_capped25", "12_editor_capped4",
       "13_other_capped10", "TOTAL_EXCLUDING_THESIS", "TOTAL_ALL"] :=
  ⟨rfl, rfl⟩

/-- Claim C7: every figure of the breakdown mapping is the corresponding
internal category value rounded to 4 decimal places, while every check is a
predicate of the unrounded internal values. -/
theorem claim_C7 (d : Payload) :
    (compute_points d).breakdown =
      [("1_2_articles_total_share", round4 (totalArticles d.articles)),
       ("3_thesis_share_capped20", round4 (thesisTotalCapped d.thesis_articles)),
       ("5_citations_capped10", round4 (cPointsCapped d.citations)),
       ("6_supervisions_capped10", round4 (sPointsCapped d.supervisions)),
       ("7_projects_capped20", round4 (pPointsCapped d.projects)),
       ("8_meetings_capped10", round4 (mPointsCapped d.meetings)),
       ("9_education_capped6", round4 (eduPointsCapped d.education)),
       ("10_patents", round4 (patPoints d.patents)),
       ("11_awards_capped25", round4 (awPointsCapped d.awards)),
       ("12_editor_capped4", round4 (edPointsCapped d.editor)),
       ("13_other_capped10", round4 (otherPointsCapped d.other)),
       ("TOTAL_EXCLUDING_THESIS", round4 (totalExclThesis d)),
       ("TOTAL_ALL", round4 (totalAll d))] ∧
    (compute_points d).checks =
      [("overall_min_100", decide (100 ≤ totalAll d)),
       ("min_90_after_excl_thesis", decide (90 ≤ totalExclThesis d)),
       ("1a_primary_at_least3_and_40pts",
         decide (3 ≤ count1aPrimaryAfter (d.after_degree.getD true) d.articles ∧
                 40 ≤ total1aPointsAfter (d.after_degree.getD true) d.articles)),
       ("2_national_at_least3_with2_trdizin_and_2_primary",
         decide (3 ≤ natPubCount d.articles ∧ 2 ≤ natTrdizinCount d.articles ∧
                 2 ≤ natPrimaryCount d.articles)),
       ("3_thesis_at_least_one_from_a_h", thesisAnyAH d.thesis_articles),
       ("5_citation_min5_after", decide (5 ≤ cPointsCapped d.citations)),
       ("8_meeting_min5_after", decide (5 ≤ mPointsCapped d.meetings)),
       ("9_education_min2", decide (2 ≤ eduPointsCapped d.education))] :=
  ⟨rfl, rfl⟩

/-- Claim C4: the primary-author article check is true exactly when at
least 3 non-thesis articles have a type among Q1, Q2, Q3, Q4, the primary
role, and the batch marked post-degree, and the sum of the shares of those
articles is at least 40. -/
theorem claim_C4 (d : Payload) :
    (compute_points d).checks.lookup "1a_primary_at_least3_and_40pts" =
      some true ↔
    3 ≤ (d.articles.filter (fun a =>
           (["Q1", "Q2", "Q3", "Q4"].contains a.type) &&
           (a.role == "primary") && d.after_degree.getD true)).length ∧
    40 ≤ ((d.articles.filter (fun a =>
            (["Q1", "Q2", "Q3", "Q4"].contains a.type) &&
            (a.role == "primary") && d.after_degree.getD true)).map
          (itemShare base_map)).sum := by
  have h : (compute_points d).checks.lookup "1a_primary_at_least3_and_40pts" =
      some (decide
        (3 ≤ count1aPrimaryAfter (d.after_degree.getD true) d.articles ∧
         40 ≤ total1aPointsAfter (d.after_degree.getD true) d.articles)) := rfl
  rw [h]
  simp only [Option.some.injEq, decide_eq_true_eq]
  exact Iff.rfl

/-- Claim C5: the national-article check is true exactly when at least 3
non-thesis articles have a national type, at least 2 of those have the top
national-index type TRDIZIN, and at least 2 of those have the primary
role. -/
theorem claim_C5 (d : Payload) :
    (compute_points d).checks.lookup
        "2_national_at_least3_with2_trdizin_and_2_primary" = some true ↔
    3 ≤ (d.articles.filter isNational).length ∧
    2 ≤ (d.articles.filter (fun a =>
          isNational a && (a.type == "TRDIZIN"))).length ∧
    2 ≤ (d.articles.filter (fun a =>
          isNational a && (a.role == "primary"))).length := by
  have h : (compute_points d).checks.lookup
      "2_national_at_least3_with2_trdizin_and_2_primary" =
      some (decide
        (3 ≤ natPubCount d.articles ∧ 2 ≤ natTrdizinCount d.articles ∧
         2 ≤ natPrimaryCount d.articles)) := rfl
  rw [h]
  simp only [Option.some.injEq, decide_eq_true_eq]
  exact Iff.rfl

/-- Claim C8: the patents category is the sum over the four tiers of count
times weight (20, 10, 5, 2) divided by the tier inventor count floored at
1; every such denominator is positive, so the zero-denominator branch of
safe_div is never taken, even at an inventor count of 0. -/
theorem claim_C8 (p : Patents) :
    patPoints p =
      20 * gz p.intl / ((max 1 (p.intl_inventors.getD 1) : Int) : ℚ) +
      10 * gz p.national / ((max 1 (p.national_inventors.getD 1) : Int) : ℚ) +
      5 * gz p.utility / ((max 1 (p.utility_inventors.getD 1) : Int) : ℚ) +
      2 * gz p.app / ((max 1 (p.app_inventors.getD 1) : Int) : ℚ) ∧
    (0 : Int) < max 1 (p.intl_inventors.getD 1) ∧
    (0 : Int) < max 1 (p.national_inventors.getD 1) ∧
    (0 : Int) < max 1 (p.utility_inventors.getD 1) ∧
    (0 : Int) < max 1 (p.app_inventors.getD 1) := by
  have hpos : ∀ o : Option Int, (0 : Int) < max 1 (o.getD 1) := fun o =>
    lt_of_lt_of_le one_pos (le_max_left _ _)
  have hq : ∀ o : Option Int, (0 : ℚ) < ((max 1 (o.getD 1) : Int) : ℚ) := by
    intro o; exact_mod_cast hpos o
  refine ⟨?_, hpos _, hpos _, hpos _, hpos _⟩
  unfold patPoints safe_div inventorDen
  rw [if_pos (hq p.intl_inventors), if_pos (hq p.national_inventors),
      if_pos (hq p.utility_inventors), if_pos (hq p.app_inventors)]

theorem article_share_nonneg (p : ℚ) (n : Int) (r : String) (hp : Bool)
    (h : 0 ≤ p) : 0 ≤ article_share p n r hp := by
  unfold article_share
  split_ifs with h1 h2 h3 h4 h5 h6 <;>
  first
    | exact le_refl 0
    | exact h
    | exact mul_nonneg h (by norm_num : (0 : ℚ) ≤ 0.8)
    | exact mul_nonneg h (by norm_num : (0 : ℚ) ≤ 0.5)
    | (refine div_nonneg
        (by first
          | exact h
          | exact mul_nonneg h (by norm_num : (0 : ℚ) ≤ 0.5)) ?_
       have hn : (1 : Int) ≤ n := by omega
       have hn2 : (1 : ℚ) ≤ (n : ℚ) := by exact_mod_cast hn
       linarith)

theorem lookup_getD_nonneg (t : String) (m : List (String × ℚ))
    (hm : ∀ pr ∈ m, 0 ≤ pr.2) : 0 ≤ (List.lookup t m).getD 0 := by
  induction m with
  | nil => simp [List.lookup]
  | cons hd tl ih =>
    rw [List.lookup]
    by_cases hb : t == hd.1
    · simp only [hb]
      exact hm hd (List.mem_cons_self hd tl)
    · simp only [Bool.not_eq_true] at hb
      simp only [hb]
      exact ih (fun pr hpr => hm pr (List.mem_cons_of_mem hd hpr))

theorem itemShare_nonneg (m : List (String × ℚ)) (a : Article)
    (hm : ∀ pr ∈ m, 0 ≤ pr.2) : 0 ≤ itemShare m a :=
  article_share_nonneg _ _ _ _ (lookup_getD_nonneg a.type m hm)

theorem base_map_nonneg : ∀ pr ∈ base_map, (0 : ℚ) ≤ pr.2 := by decide

theorem thesis_map_nonneg : ∀ pr ∈ thesis_map, (0 : ℚ) ≤ pr.2 := by decide

theorem totalArticles_nonneg (l : List Article) : 0 ≤ totalArticles l := by
  unfold totalArticles
  refine List.sum_nonneg ?_
  intro x hx
  obtain ⟨a, _, rfl⟩ := List.mem_map.mp hx
  exact itemShare_nonneg base_map a base_map_nonneg

theorem thesisTotalShare_nonneg (l : List Article) : 0 ≤ thesisTotalShare l := by
  unfold thesisTotalShare
  refine List.sum_nonneg ?_
  intro x hx
  obtain ⟨a, _, rfl⟩ := List.mem_map.mp hx
  exact itemShare_nonneg thesis_map a thesis_map_nonneg

theorem eduPoints_nonneg (e : Education) : 0 ≤ eduPoints e := by
  unfold eduPoints
  split_ifs <;> norm_num

theorem safe_div_nonneg (x n : ℚ) (hx : 0 ≤ x) : 0 ≤ safe_div x n := by
  unfold safe_div
  split_ifs with h
  · exact div_nonneg hx h.le
  · exact le_refl 0

/-- Claim C6: on a payload whose numeric counts are all non-negative, every
category tally is non-negative, every capped tally stays below its ceiling
(thesis 20, citations 10, supervisions 10, projects 20, meetings 10,
education 6, awards 25, editorship 4, other 10), and education lies in
the interval from 0 to 6. -/
theorem claim_C6 (d : Payload) (h : NonNegCounts d) : TalliesBounded d := by
  obtain ⟨h1, h2, h3, h4, h5, h6, h7, h8, h9, h10, h11, h12, h13, h14, h15,
    h16, _, _, h19, h20, h21, h22, h23, h24, h25, h26, h27, h28, h29, h30,
    h31⟩ := h
  have g1 : (0:ℚ) ≤ gz d.citations.wos_scopus := by unfold gz; exact_mod_cast h1
  have g2 : (0:ℚ) ≤ gz d.citations.bkci := by unfold gz; exact_mod_cast h2
  have g3 : (0:ℚ) ≤ gz d.citations.trdizin := by unfold gz; exact_mod_cast h3
  have g4 : (0:ℚ) ≤ gz d.citations.other := by unfold gz; exact_mod_cast h4
  have g5 : (0:ℚ) ≤ gz d.supervisions.phd := by unfold gz; exact_mod_cast h5
  have g6 : (0:ℚ) ≤ gz d.supervisions.ms := by unfold gz; exact_mod_cast h6
  have g7 : (0:ℚ) ≤ gz d.supervisions.phd_as_second := by
    unfold gz; exact_mod_cast h7
  have g8 : (0:ℚ) ≤ gz d.supervisions.ms_as_second := by
    unfold gz; exact_mod_cast h8
  have g9 : (0:ℚ) ≤ gz d.projects.eu_tubitak_coord := by
    unfold gz; exact_mod_cast h9
  have g10 : (0:ℚ) ≤ gz d.projects.eu_tubitak_researcher := by
    unfold gz; exact_mod_cast h10
  have g11 : (0:ℚ) ≤ gz d.projects.eu_tubitak_advisor := by
    unfold gz; exact_mod_cast h11
  have g12 : (0:ℚ) ≤ gz d.projects.intl_project_any := by
    unfold gz; exact_mod_cast h12
  have g13 : (0:ℚ) ≤ gz d.projects.public_private_rnd := by
    unfold gz; exact_mod_cast h13
  have g14 : (0:ℚ) ≤ gz d.projects.bap_coord := by unfold gz; exact_mod_cast h14
  have g15 : (0:ℚ) ≤ gz d.meetings.cpci := by unfold gz; exact_mod_cast h15
  have g16 : (0:ℚ) ≤ gz d.meetings.other := by unfold gz; exact_mod_cast h16
  have g19 : (0:ℚ) ≤ gz d.patents.intl := by unfold gz; exact_mod_cast h19
  have g20 : (0:ℚ) ≤ gz d.patents.national := by unfold gz; exact_mod_cast h20
  have g21 : (0:ℚ) ≤ gz d.patents.utility := by unfold gz; exact_mod_cast h21
  have g22 : (0:ℚ) ≤ gz d.patents.app := by unfold gz; exact_mod_cast h22
  have g23 : (0:ℚ) ≤ gz d.awards.yok_phd := by unfold gz; exact_mod_cast h23
  have g24 : (0:ℚ) ≤ gz d.awards.yok_high := by unfold gz; exact_mod_cast h24
  have g25 : (0:ℚ) ≤ gz d.awards.tubitak_science := by
    unfold gz; exact_mod_cast h25
  have g26 : (0:ℚ) ≤ gz d.awards.tubitak_encour := by
    unfold gz; exact_mod_cast h26
  have g27 : (0:ℚ) ≤ gz d.awards.tuba_gebip := by unfold gz; exact_mod_cast h27
  have g28 : (0:ℚ) ≤ gz d.awards.tuba_tesep := by unfold gz; exact_mod_cast h28
  have g29 : (0:ℚ) ≤ gz d.editor.wos_scopus := by unfold gz; exact_mod_cast h29
  have g30 : (0:ℚ) ≤ gz d.editor.bkci_scopus_book := by
    unfold gz; exact_mod_cast h30
  have g31 : (0:ℚ) ≤ gz d.editor.trdizin := by unfold gz; exact_mod_cast h31
  unfold TalliesBounded cPointsCapped sPointsCapped pPointsCapped
    mPointsCapped eduPointsCapped awPointsCapped edPointsCapped
    otherPointsCapped thesisTotalCapped cap
  refine ⟨totalArticles_nonneg _,
    le_min (thesisTotalShare_nonneg _) (by norm_num), min_le_right _ _,
    le_min (by linarith) (by norm_num), min_le_right _ _,
    le_min (by linarith) (by norm_num), min_le_right _ _,
    le_min (by linarith) (by norm_num), min_le_right _ _,
    le_min (by linarith) (by norm_num), min_le_right _ _,
    le_min (eduPoints_nonneg _) (by norm_num), min_le_right _ _,
    ?_,
    le_min (by nlinarith) (by norm_num), min_le_right _ _,
    le_min (by linarith) (by norm_num), min_le_right _ _,
    le_min (by split_ifs <;> norm_num) (by norm_num), min_le_right _ _⟩
  unfold patPoints
  have p1 := safe_div_nonneg (20 * gz d.patents.intl)
    ((inventorDen d.patents.intl_inventors : Int) : ℚ) (by linarith)
  have p2 := safe_div_nonneg (10 * gz d.patents.national)
    ((inventorDen d.patents.national_inventors : Int) : ℚ) (by linarith)
  have p3 := safe_div_nonneg (5 * gz d.patents.utility)
    ((inventorDen d.patents.utility_inventors : Int) : ℚ) (by linarith)
  have p4 := safe_div_nonneg (2 * gz d.patents.app)
    ((inventorDen d.patents.app_inventors : Int) : ℚ) (by linarith)
  linarith

/-- Closed witness for claim C6 at the all-defaults payload. -/
theorem claim_C6_witness : NonNegCounts P0 ∧ TalliesBounded P0 :=
  ⟨by decide, claim_C6 P0 (by decide)⟩

theorem article_share_zero (n : Int) (r : String) (hp : Bool) :
    article_share 0 n r hp = 0 := by
  unfold article_share
  split_ifs <;> simp

theorem itemShare_of_lookup_none (m : List (String × ℚ)) (a : Article)
    (h : List.lookup a.type m = none) : itemShare m a = 0 := by
  unfold itemShare
  rw [h]
  exact article_share_zero _ _ _

theorem inventorDen_fillO (o : Option Int) :
    inventorDen (fillO o) = inventorDen o := by
  cases o <;> rfl

theorem patPoints_fill (p : Patents) :
    patPoints ⟨fillO p.intl, fillO p.national, fillO p.utility, fillO p.app,
               fillO p.intl_inventors, fillO p.national_inventors,
               fillO p.utility_inventors, fillO p.app_inventors⟩ =
      patPoints p := by
  unfold patPoints
  rw [inventorDen_fillO, inventorDen_fillO, inventorDen_fillO, inventorDen_fillO]
  rfl

theorem totalExclThesis_fill (d : Payload) :
    totalExclThesis (fillCounts d) = totalExclThesis d := by
  unfold totalExclThesis
  rw [show (fillCounts d).patents =
        (⟨fillO d.patents.intl, fillO d.patents.national,
          fillO d.patents.utility, fillO d.patents.app,
          fillO d.patents.intl_inventors, fillO d.patents.national_inventors,
          fillO d.patents.utility_inventors, fillO d.patents.app_inventors⟩ :
          Patents) from rfl,
      patPoints_fill]
  rfl

theorem totalAll_fill (d : Payload) : totalAll (fillCounts d) = totalAll d := by
  unfold totalAll
  rw [totalExclThesis_fill]
  rfl

theorem compute_points_fill (d : Payload) :
    compute_points (fillCounts d) = compute_points d := by
  unfold compute_points
  have hche : checksOf (fillCounts d) = checksOf d := by
    unfold checksOf
    rw [totalAll_fill, totalExclThesis_fill]
    rfl
  have hbre : breakdownOf (fillCounts d) = breakdownOf d := by
    unfold breakdownOf
    rw [totalAll_fill, totalExclThesis_fill,
        show (fillCounts d).patents =
          (⟨fillO d.patents.intl, fillO d.patents.national,
            fillO d.patents.utility, fillO d.patents.app,
            fillO d.patents.intl_inventors, fillO d.patents.national_inventors,
            fillO d.patents.utility_inventors, fillO d.patents.app_inventors⟩ :
            Patents) from rfl,
        patPoints_fill]
    rfl
  rw [totalAll_fill, totalExclThesis_fill, hche, hbre]

/-- Claim C9: an article or thesis item whose category code is not a key of
its rule table contributes exactly 0 to its category total (the engine is
total, no error path), and zero-filling every missing numeric count field
of the payload leaves the whole result unchanged. -/
theorem claim_C9 :
    (∀ (a : Article) (l : List Article),
      List.lookup a.type base_map = none →
      totalArticles (a :: l) = totalArticles l) ∧
    (∀ (a : Article) (l : List Article),
      List.lookup a.type thesis_map = none →
      thesisTotalShare (a :: l) = thesisTotalShare l) ∧
    (∀ d : Payload, compute_points (fillCounts d) = compute_points d) := by
  refine ⟨?_, ?_, compute_points_fill⟩
  · intro a l h
    unfold totalArticles
    rw [List.map_cons, List.sum_cons, itemShare_of_lookup_none base_map a h,
        zero_add]
  · intro a l h
    unfold thesisTotalShare
    rw [List.map_cons, List.sum_cons, itemShare_of_lookup_none thesis_map a h,
        zero_add]

/-- Closed witness for claim C9: a concrete unknown category code at the
head of a one-item list contributes nothing, for both rule tables, and the
zero-fill of the all-defaults payload changes nothing. -/
theorem claim_C9_witness :
    List.lookup "PREPRINT" base_map = none ∧
    totalArticles [⟨"PREPRINT", 1, "primary", none⟩] = totalArticles [] ∧
    List.lookup "PREPRINT" thesis_map = none ∧
    thesisTotalShare [⟨"PREPRINT", 2, "other", some true⟩] =
      thesisTotalShare [] ∧
    compute_points (fillCounts P0) = compute_points P0 :=
  ⟨by decide,
   claim_C9.1 ⟨"PREPRINT", 1, "primary", none⟩ [] (by decide),
   by decide,
   claim_C9.2.1 ⟨"PREPRINT", 2, "other", some true⟩ [] (by decide),
   claim_C9.2.2 P0⟩

/-- Claim C10: omitting the after_degree key is the same as setting it to
true: the whole result of the engine is unchanged. -/
theorem claim_C10 (d : Payload) :
    compute_points { d with after_degree := none } =
      compute_points { d with after_degree := some true } := rfl

end Docent
